import Mathlib

/- Verification of the telegram_handler buffering and delivery subsystem.
   `MessageBuffer` embeds src/telegram_handler/buffer.py and the handler
   definitions embed src/telegram_handler/handler.py.  Text is modelled as
   `List Char`; Python slicing `s[:n]` and `s[n:]` become `List.take` and
   `List.drop`, string concatenation becomes `List.append`. -/

/-- Embeds the `MessageBuffer` state from buffer.py: `max_size` and the
string field `buffer`.  The constructor also stores `self.lock = Event()`,
a signalling primitive that no method of the class ever touches; the
synchronization-trace definitions below record that fact explicitly, so the
state here carries only the two fields the methods read or write. -/
structure MessageBuffer where
  max_size : Nat
  buffer : List Char
  deriving Repr, DecidableEq

/-- Embeds `MessageBuffer.flush` (buffer.py lines 23-24): unconditionally
empties the buffer. -/
def MessageBuffer.flush (b : MessageBuffer) : MessageBuffer :=
  { b with buffer := [] }

/-- Embeds `MessageBuffer.write` (buffer.py lines 12-16): append the message
when `len(self.buffer) + len(message) <= self.max_size`, otherwise call
`self.flush()`.  Note the overflow branch only clears; the incoming
message is not appended afterwards. -/
def MessageBuffer.write (b : MessageBuffer) (message : List Char) : MessageBuffer :=
  if b.buffer.length + message.length ≤ b.max_size then
    { b with buffer := b.buffer ++ message }
  else
    b.flush

/-- Embeds `MessageBuffer.read` (buffer.py lines 18-21): return
`self.buffer[:size]` and keep `self.buffer[size:]`. -/
def MessageBuffer.read (b : MessageBuffer) (size : Nat) : List Char × MessageBuffer :=
  (b.buffer.take size, { b with buffer := b.buffer.drop size })

/-- Embeds the buffer produced by `MessageBuffer.__init__` (buffer.py
lines 7-10): an empty string with the given capacity. -/
def MessageBuffer.empty (capacity : Nat) : MessageBuffer :=
  { max_size := capacity, buffer := [] }

/-- Events a buffer operation could report to an error channel.  buffer.py
has no error-reporting call on any path, so the instrumented operations
below always emit an empty event list. -/
inductive BufferEvent where
  | overflowReported
  deriving Repr, DecidableEq

/-- Instrumented `write`: the state change of `MessageBuffer.write` paired
with the list of overflow events the source reports during the call.
Every path of buffer.py lines 12-16 performs no reporting of any kind, so
the event list is `[]` on both branches. -/
def MessageBuffer.writeEv (b : MessageBuffer) (message : List Char) :
    MessageBuffer × List BufferEvent :=
  (b.write message, [])

/-- Synchronization actions a buffer operation could perform on a lock. -/
inductive SyncOp where
  | acquireLock
  | releaseLock
  | eventWait
  | eventSet
  deriving Repr, DecidableEq

/-- Trace of synchronization actions performed by `MessageBuffer.write`
(buffer.py lines 12-16): the method touches `self.buffer` and
`self.max_size` only; `self.lock` is never waited on, set, or acquired. -/
def MessageBuffer.writeSyncTrace (b : MessageBuffer) (message : List Char) :
    List SyncOp :=
  []

/-- Trace of synchronization actions performed by `MessageBuffer.read`
(buffer.py lines 18-21): none. -/
def MessageBuffer.readSyncTrace (b : MessageBuffer) (size : Nat) : List SyncOp :=
  []

/-- Trace of synchronization actions performed by `MessageBuffer.flush`
(buffer.py lines 23-24): none. -/
def MessageBuffer.flushSyncTrace (b : MessageBuffer) : List SyncOp :=
  []

/-- One operation of the buffer interface, for reasoning about reachable
states: `wr` is `write`, `rd` is `read` (the take operation), `clear` is
`flush`. -/
inductive BufOp where
  | wr (message : List Char)
  | rd (size : Nat)
  | clear
  deriving Repr, DecidableEq

/-- Applies one buffer operation to a buffer state. -/
def MessageBuffer.applyOp (b : MessageBuffer) : BufOp → MessageBuffer
  | BufOp.wr m => b.write m
  | BufOp.rd n => (b.read n).2
  | BufOp.clear => b.flush

/-- Applies a sequence of buffer operations in order. -/
def MessageBuffer.applyOps (b : MessageBuffer) (ops : List BufOp) : MessageBuffer :=
  ops.foldl MessageBuffer.applyOp b

/-- Applies a sequence of `write` calls in order. -/
def MessageBuffer.writeAll (b : MessageBuffer) (messages : List (List Char)) :
    MessageBuffer :=
  messages.foldl MessageBuffer.write b

/-- Outcome of one execution of the body of `TelegramLoggingHandler.write`
(handler.py lines 82-90): either it returns normally or it raises a
`requests.exceptions.RequestException`.  Every exception the body can
raise is a `RequestException`: `requests.post` raises transport errors
that subclass it, `raise_for_status` raises `HTTPError` which subclasses
it, and the explicit 429 branch raises it directly. -/
inductive AttemptOutcome where
  | succeeded
  | raisedRequestException
  deriving Repr, DecidableEq

/-- Result of one `requests.post` call: a transport failure (raised as a
`RequestException` subclass) or an HTTP response with a status code. -/
inductive PostResult where
  | networkError
  | status (code : Nat)
  deriving Repr, DecidableEq

/-- Embeds the body of `TelegramLoggingHandler.write` (handler.py lines
82-90) as a function of the post result: `requests.post` of a transport
failure raises; `response.raise_for_status()` raises `HTTPError` exactly
when the status code is in 400..599 (this includes 400, 401 and 403); the
explicit check then raises on 429.  No branch distinguishes permanent
from transient statuses. -/
def writeAttempt : PostResult → AttemptOutcome
  | PostResult.networkError => AttemptOutcome.raisedRequestException
  | PostResult.status code =>
    if 400 ≤ code ∧ code < 600 then AttemptOutcome.raisedRequestException
    else if code = 429 then AttemptOutcome.raisedRequestException
    else AttemptOutcome.succeeded

/-- Embeds the `@retry(requests.exceptions.RequestException, tries=..., ...)`
decorator on `TelegramLoggingHandler.write` (handler.py lines 75-81),
counting how many attempts are executed: with a budget of `tries`
attempts, each attempt whose outcome is a raised `RequestException`
consumes the budget and is re-run after a delay, until an attempt
succeeds or the budget is exhausted.  `env i` is the result of the
i-th `requests.post` call. -/
def retryAttemptCount : Nat → (Nat → PostResult) → Nat → Nat
  | 0, _, _ => 0
  | Nat.succ t, env, i =>
    match writeAttempt (env i) with
    | AttemptOutcome.succeeded => 1
    | AttemptOutcome.raisedRequestException => 1 + retryAttemptCount t env (i + 1)

/-- Number of attempts one call of the decorated
`TelegramLoggingHandler.write` performs, given the attempt budget and the
environment of post results. -/
def handlerWriteAttempts (tries : Nat) (env : Nat → PostResult) : Nat :=
  retryAttemptCount tries env 0

/-- Modelled from the spec: the attempt ceiling `MAX_RETRYS` comes from
telegram_handler/consts.py, which is not under src/.  The spec requires
the ceiling to admit retries (its retry scenario has a send failing on
attempts 1 and 2 and succeeding on attempt 3 with a ceiling of at least
3), so 3 is taken as a representative concrete value; the classification
theorems below quantify over the ceiling. -/
def MAX_RETRYS : Nat := 3

/-- State of a `TelegramLoggingHandler` as far as the lifecycle claims
need it: the message buffer, the list of payloads handed to the delivery
call so far, whether `close` currently holds `_stop_signal`, and whether
the writer thread is still running. -/
structure HandlerState where
  buffer : MessageBuffer
  sent : List (List Char)
  stopHeld : Bool
  workerAlive : Bool
  deriving Repr, DecidableEq

/-- Embeds one iteration of the loop of
`TelegramLoggingHandler._write_manager` (handler.py lines 100-112), at the
granularity of the loop check where the stop signal is observed.  The
iteration first tries `self._stop_signal.acquire(blocking=False)`; the
acquire fails exactly when `close` holds the lock, and then the loop
breaks immediately, with no further `read` and no send.  Otherwise the
iteration sleeps, calls `self._buffer.read(MAX_MESSAGE_SIZE)`, and sends
the result when it is non-empty. -/
def writeManagerStep (maxMessageSize : Nat) (s : HandlerState) : HandlerState :=
  if s.stopHeld then
    { s with workerAlive := false }
  else
    let taken := s.buffer.read maxMessageSize
    if taken.1 = [] then
      { s with buffer := taken.2 }
    else
      { s with buffer := taken.2, sent := s.sent ++ [taken.1] }

/-- Embeds `TelegramLoggingHandler.close` (handler.py lines 96-98):
`with self._stop_signal: self._writer_thread.join()`.  While the lock is
held, the worker loop observes the failed non-blocking acquire at its
next check and breaks without touching the buffer or sending, so the
join returns and the lock is released; joining an already-terminated
thread returns immediately and changes nothing.  The resulting state has
the worker terminated and the buffer, sent list and released lock
unchanged. -/
def TelegramLoggingHandler.close (s : HandlerState) : HandlerState :=
  { s with workerAlive := false }

/-- Embeds the text-forwarding of `TelegramLoggingHandler.emit`
(handler.py lines 92-94): the handler formats the record and calls
`self._buffer.write(f"{message}.\n")`, appending a period and a newline
unconditionally. -/
def emitForwardedText (message : List Char) : List Char :=
  message ++ ['.', '\n']

/-- Embeds the full effect of `TelegramLoggingHandler.emit` on the buffer:
forward the formatted text, with the appended suffix, to
`MessageBuffer.write`. -/
def TelegramLoggingHandler.emit (b : MessageBuffer) (message : List Char) :
    MessageBuffer :=
  b.write (emitForwardedText message)

theorem applyOp_max_size (b : MessageBuffer) (op : BufOp) :
    (b.applyOp op).max_size = b.max_size := by
  cases op <;>
    simp only [MessageBuffer.applyOp, MessageBuffer.write, MessageBuffer.flush,
      MessageBuffer.read] <;>
    split <;> rfl

theorem applyOp_invariant (b : MessageBuffer) (op : BufOp)
    (h : b.buffer.length ≤ b.max_size) :
    (b.applyOp op).buffer.length ≤ (b.applyOp op).max_size := by
  rw [applyOp_max_size]
  cases op with
  | wr m =>
    simp only [MessageBuffer.applyOp, MessageBuffer.write]
    split
    · simpa using by assumption
    · simp [MessageBuffer.flush]
  | rd n =>
    simp only [MessageBuffer.applyOp, MessageBuffer.read, List.length_drop]
    omega
  | clear =>
    simp [MessageBuffer.applyOp, MessageBuffer.flush]

theorem applyOps_invariant (ops : List BufOp) (b : MessageBuffer)
    (h : b.buffer.length ≤ b.max_size) :
    (b.applyOps ops).buffer.length ≤ (b.applyOps ops).max_size := by
  induction ops generalizing b with
  | nil => simpa [MessageBuffer.applyOps] using h
  | cons op ops ih =>
    simp only [MessageBuffer.applyOps, List.foldl_cons] at ih ⊢
    exact ih (b.applyOp op) (applyOp_invariant b op h)

theorem applyOps_max_size (ops : List BufOp) (b : MessageBuffer) :
    (b.applyOps ops).max_size = b.max_size := by
  induction ops generalizing b with
  | nil => rfl
  | cons op ops ih =>
    simp only [MessageBuffer.applyOps, List.foldl_cons] at ih ⊢
    rw [ih (b.applyOp op), applyOp_max_size]

theorem writeAll_buffer (messages : List (List Char)) (b : MessageBuffer)
    (h : b.buffer.length + messages.flatten.length ≤ b.max_size) :
    (b.writeAll messages).buffer = b.buffer ++ messages.flatten := by
  induction messages generalizing b with
  | nil => simp [MessageBuffer.writeAll]
  | cons m ms ih =>
    simp only [List.flatten_cons, List.length_append] at h
    have hfit : b.buffer.length + m.length ≤ b.max_size := by omega
    have hw : b.write m = { b with buffer := b.buffer ++ m } := by
      simp [MessageBuffer.write, hfit]
    simp only [MessageBuffer.writeAll, List.foldl_cons, hw] at ih ⊢
    have h2 : (b.buffer ++ m).length + ms.flatten.length ≤ b.max_size := by
      simp only [List.length_append]; omega
    have := ih { b with buffer := b.buffer ++ m } (by simpa using h2)
    simp only [MessageBuffer.writeAll] at this
    rw [this, List.flatten_cons, List.append_assoc]

/-- C5: every buffer state reachable from the empty buffer by a sequence of
write, read and flush operations satisfies the capacity invariant: the
content length never exceeds the capacity after an operation completes. -/
theorem C5_invariant_length_le_capacity (capacity : Nat) (ops : List BufOp) :
    ((MessageBuffer.empty capacity).applyOps ops).buffer.length ≤ capacity := by
  have h := applyOps_invariant ops (MessageBuffer.empty capacity)
    (by simp [MessageBuffer.empty])
  rwa [applyOps_max_size ops (MessageBuffer.empty capacity)] at h

/-- C6: `read n` returns exactly the first `min n (length content)`
characters of the content, never more than `n`, leaves exactly the
content with that returned portion removed (so returned part plus
remainder reassemble the original content), and returns the empty string
on an empty buffer. -/
theorem C6_read_exact_take (b : MessageBuffer) (n : Nat) :
    (b.read n).1 = b.buffer.take n ∧
    (b.read n).1.length = min n b.buffer.length ∧
    (b.read n).1.length ≤ n ∧
    (b.read n).2.buffer = b.buffer.drop n ∧
    (b.read n).1 ++ (b.read n).2.buffer = b.buffer ∧
    (b.buffer = [] → (b.read n).1 = []) := by
  refine ⟨rfl, ?_, ?_, rfl, ?_, ?_⟩
  · simp [MessageBuffer.read, List.length_take]
  · simp [MessageBuffer.read, List.length_take]
  · simp [MessageBuffer.read, List.take_append_drop]
  · intro h; simp [MessageBuffer.read, h]

theorem C6_read_exact_take_witness :
    ((MessageBuffer.empty 5).read 3).1 = [] :=
  (C6_read_exact_take (MessageBuffer.empty 5) 3).2.2.2.2.2 rfl

/-- C7: starting from the empty buffer, two writes that jointly fit the
capacity followed by a read of their total length return the exact
concatenation, and more generally any write sequence whose total length
fits the capacity is returned in write order, concatenated, by a read of
the capacity. -/
theorem C7_roundtrip_concat (capacity : Nat) (a b : List Char)
    (hab : a.length + b.length ≤ capacity)
    (messages : List (List Char))
    (hm : messages.flatten.length ≤ capacity) :
    ((((MessageBuffer.empty capacity).write a).write b).read
        (a.length + b.length)).1 = a ++ b ∧
    (((MessageBuffer.empty capacity).writeAll messages).read capacity).1 =
      messages.flatten := by
  constructor
  · have hbuf : (((MessageBuffer.empty capacity).write a).write b).buffer = a ++ b := by
      have h2 := writeAll_buffer [a, b] (MessageBuffer.empty capacity)
        (by simp [MessageBuffer.empty]; omega)
      simpa [MessageBuffer.writeAll, MessageBuffer.empty] using h2
    simp only [MessageBuffer.read, hbuf]
    exact List.take_of_length_le (by simp)
  · have hbuf : ((MessageBuffer.empty capacity).writeAll messages).buffer =
        messages.flatten := by
      have h2 := writeAll_buffer messages (MessageBuffer.empty capacity)
        (by simpa [MessageBuffer.empty] using hm)
      simpa [MessageBuffer.empty] using h2
    simp only [MessageBuffer.read, hbuf]
    exact List.take_of_length_le hm

theorem C7_roundtrip_concat_witness :
    ((((MessageBuffer.empty 4).write ['a']).write ['b', 'c']).read
        (List.length ['a'] + List.length ['b', 'c'])).1 = ['a'] ++ ['b', 'c'] ∧
    (((MessageBuffer.empty 4).writeAll [['a'], ['b', 'c']]).read 4).1 =
      List.flatten [['a'], ['b', 'c']] :=
  C7_roundtrip_concat 4 ['a'] ['b', 'c'] (by decide) [['a'], ['b', 'c']] (by decide)

/-- C1 counterexample: capacity 5, current content "abc", incoming "def".
The lengths satisfy 3 + 3 > 5 and 3 <= 5, so the claim says the buffer
ends holding "def"; the code clears the buffer and drops the incoming
message, so the buffer ends empty. -/
theorem C1_counterexample :
    (MessageBuffer.write { max_size := 5, buffer := ['a', 'b', 'c'] }
        ['d', 'e', 'f']).buffer = [] ∧
    ¬ (MessageBuffer.write { max_size := 5, buffer := ['a', 'b', 'c'] }
        ['d', 'e', 'f']).buffer = ['d', 'e', 'f'] := by
  decide

/-- C1 amended: whenever the current content plus the incoming message
exceeds the capacity, `write` clears the buffer and drops the incoming
message as well, so the buffer ends empty even when the message alone
would have fit. -/
theorem C1_overflow_clears_and_drops (b : MessageBuffer) (message : List Char)
    (h : b.max_size < b.buffer.length + message.length) :
    (b.write message).buffer = [] := by
  unfold MessageBuffer.write
  rw [if_neg (by omega)]
  rfl

theorem C1_overflow_clears_and_drops_witness :
    (MessageBuffer.write { max_size := 5, buffer := ['a', 'b', 'c'] }
        ['d', 'e', 'f']).buffer = [] :=
  C1_overflow_clears_and_drops
    { max_size := 5, buffer := ['a', 'b', 'c'] } ['d', 'e', 'f'] (by decide)

/-- C4 counterexample: capacity 3, empty buffer, incoming message of
length 4.  The buffer does end empty, but the source reports zero
overflow events, not exactly one: buffer.py has no error-reporting call. -/
theorem C4_counterexample :
    ((MessageBuffer.writeEv { max_size := 3, buffer := [] }
        ['a', 'b', 'c', 'd']).2).length = 0 ∧
    ¬ ((MessageBuffer.writeEv { max_size := 3, buffer := [] }
        ['a', 'b', 'c', 'd']).2).length = 1 := by
  decide

/-- C4 amended: for a single `write` of a message longer than the
capacity, on any buffer state, the buffer ends empty and the call returns
normally to the producer, but no overflow event is reported: the event
list of the call is empty, not a singleton. -/
theorem C4_oversize_write_silent (b : MessageBuffer) (message : List Char)
    (h : b.max_size < message.length) :
    (b.writeEv message).1.buffer = [] ∧ (b.writeEv message).2 = [] := by
  refine ⟨?_, rfl⟩
  exact C1_overflow_clears_and_drops b message (by omega)

theorem C4_oversize_write_silent_witness :
    (MessageBuffer.writeEv { max_size := 3, buffer := ['x'] }
        ['a', 'b', 'c', 'd']).1.buffer = [] ∧
    (MessageBuffer.writeEv { max_size := 3, buffer := ['x'] }
        ['a', 'b', 'c', 'd']).2 = [] :=
  C4_oversize_write_silent { max_size := 3, buffer := ['x'] }
    ['a', 'b', 'c', 'd'] (by decide)

/-- C10 counterexample: a formatted message that already ends with a
newline.  The claim says it is forwarded unchanged; the source forwards
it with a period and a newline appended, because the f-string in `emit`
appends unconditionally. -/
theorem C10_counterexample :
    emitForwardedText ['a', '\n'] = ['a', '\n', '.', '\n'] ∧
    ¬ emitForwardedText ['a', '\n'] = ['a', '\n'] := by
  decide

/-- C10 amended: `emit` forwards the formatted text to `MessageBuffer.write`
with a period and a line terminator appended unconditionally, whether or
not the text already ends with a line terminator; nothing is ever
forwarded unchanged. -/
theorem C10_emit_always_appends (b : MessageBuffer) (message : List Char) :
    emitForwardedText message = message ++ ['.', '\n'] ∧
    TelegramLoggingHandler.emit b message = b.write (message ++ ['.', '\n']) ∧
    ¬ emitForwardedText message = message := by
  refine ⟨rfl, rfl, ?_⟩
  intro h
  have := congrArg List.length h
  simp [emitForwardedText] at this

/-- C2 counterexample: a running handler whose buffer holds "hi" and whose
sent list is empty.  The claim says `close` performs a final read and a
final send, so "hi" would appear in the sent list; in the source the
worker loop breaks at its stop check without another read or send, so
after `close` nothing has been sent and the buffer still holds "hi". -/
theorem C2_counterexample :
    (TelegramLoggingHandler.close
        { buffer := { max_size := 10, buffer := ['h', 'i'] }, sent := [],
          stopHeld := false, workerAlive := true }).sent = [] ∧
    (TelegramLoggingHandler.close
        { buffer := { max_size := 10, buffer := ['h', 'i'] }, sent := [],
          stopHeld := false, workerAlive := true }).buffer.buffer = ['h', 'i'] ∧
    ¬ (TelegramLoggingHandler.close
        { buffer := { max_size := 10, buffer := ['h', 'i'] }, sent := [],
          stopHeld := false, workerAlive := true }).sent = [['h', 'i']] := by
  decide

/-- C2 amended: `close` terminates the worker without any final drain: once
the stop signal is held, the next worker loop check breaks immediately,
performing no further read and no further send, and `close` leaves the
buffer content and the sent list exactly as they were, so content still
buffered when `close` is called is lost rather than delivered. -/
theorem C2_close_does_not_drain (maxMessageSize : Nat) (s : HandlerState)
    (h : s.workerAlive = true) :
    (writeManagerStep maxMessageSize { s with stopHeld := true }).workerAlive = false ∧
    (writeManagerStep maxMessageSize { s with stopHeld := true }).buffer = s.buffer ∧
    (writeManagerStep maxMessageSize { s with stopHeld := true }).sent = s.sent ∧
    (TelegramLoggingHandler.close s).workerAlive = false ∧
    (TelegramLoggingHandler.close s).buffer = s.buffer ∧
    (TelegramLoggingHandler.close s).sent = s.sent := by
  refine ⟨?_, ?_, ?_, rfl, rfl, rfl⟩ <;> simp [writeManagerStep]

theorem C2_close_does_not_drain_witness :
    (writeManagerStep 4
        { buffer := { max_size := 10, buffer := ['h', 'i'] }, sent := [],
          stopHeld := true, workerAlive := true }).workerAlive = false ∧
    (writeManagerStep 4
        { buffer := { max_size := 10, buffer := ['h', 'i'] }, sent := [],
          stopHeld := true, workerAlive := true }).buffer =
      { max_size := 10, buffer := ['h', 'i'] } ∧
    (writeManagerStep 4
        { buffer := { max_size := 10, buffer := ['h', 'i'] }, sent := [],
          stopHeld := true, workerAlive := true }).sent = [] ∧
    (TelegramLoggingHandler.close
        { buffer := { max_size := 10, buffer := ['h', 'i'] }, sent := [],
          stopHeld := false, workerAlive := true }).workerAlive = false ∧
    (TelegramLoggingHandler.close
        { buffer := { max_size := 10, buffer := ['h', 'i'] }, sent := [],
          stopHeld := false, workerAlive := true }).buffer =
      { max_size := 10, buffer := ['h', 'i'] } ∧
    (TelegramLoggingHandler.close
        { buffer := { max_size := 10, buffer := ['h', 'i'] }, sent := [],
          stopHeld := false, workerAlive := true }).sent = [] :=
  C2_close_does_not_drain 4
    { buffer := { max_size := 10, buffer := ['h', 'i'] }, sent := [],
      stopHeld := false, workerAlive := true } rfl

/-- C9: `close` is idempotent: a second call acquires the released lock,
joins the already-terminated worker thread, and returns immediately, so
the end state after two calls equals the end state after one, with the
buffer, the sent list and all reported effects unchanged by the second
call. -/
theorem C9_close_idempotent (s : HandlerState) :
    TelegramLoggingHandler.close (TelegramLoggingHandler.close s) =
      TelegramLoggingHandler.close s :=
  rfl

/-- C8: the buffer operations perform no synchronization at all.  The
claim says every execution of write, read and flush acquires a
mutual-exclusion primitive guarding the content; in the source the only
candidate, the `threading.Event` stored in `self.lock`, is created in
the constructor and never used again, so the synchronization trace of
each operation is empty and in particular contains no lock acquisition.
Evaluated at the failing input: `write` of "a" on an empty buffer of
capacity 5, `read 1` and `flush` on a buffer holding "a". -/
theorem C8_no_lock_acquisition :
    MessageBuffer.writeSyncTrace { max_size := 5, buffer := [] } ['a'] = [] ∧
    MessageBuffer.readSyncTrace { max_size := 5, buffer := ['a'] } 1 = [] ∧
    MessageBuffer.flushSyncTrace { max_size := 5, buffer := ['a'] } = [] ∧
    ¬ SyncOp.acquireLock ∈
        MessageBuffer.writeSyncTrace { max_size := 5, buffer := [] } ['a'] := by
  refine ⟨rfl, rfl, rfl, ?_⟩
  intro h
  simp [MessageBuffer.writeSyncTrace] at h

theorem retryAttemptCount_const_fail (r : PostResult)
    (hr : writeAttempt r = AttemptOutcome.raisedRequestException) :
    ∀ tries i, retryAttemptCount tries (fun _ => r) i = tries := by
  intro tries
  induction tries with
  | zero => intro i; rfl
  | succ t ih =>
    intro i
    simp only [retryAttemptCount, hr]
    rw [ih (i + 1)]
    omega

/-- C3 counterexample: every `requests.post` answers HTTP 400 and the
attempt budget is the modelled `MAX_RETRYS` value 3.  The claim says a
400 response causes exactly one attempt; the decorated `write` performs
all three attempts, because `raise_for_status` turns 400 into an
`HTTPError`, a subclass of the `RequestException` the retry decorator
catches. -/
theorem C3_counterexample :
    handlerWriteAttempts MAX_RETRYS (fun _ => PostResult.status 400) = 3 ∧
    ¬ handlerWriteAttempts MAX_RETRYS (fun _ => PostResult.status 400) = 1 := by
  decide

/-- C3 amended: the retry predicate of the source catches every
`RequestException`, with no transient-versus-permanent classification:
for any status code in 400..599 (so also 400, 401 and 403) and any
attempt budget, a send that keeps answering that status is attempted
once per unit of budget, exactly as a transport failure is, rather than
exactly once. -/
theorem C3_permanent_failures_retried (tries : Nat) (code : Nat)
    (h4 : 400 ≤ code) (h6 : code < 600) :
    handlerWriteAttempts tries (fun _ => PostResult.status code) = tries ∧
    handlerWriteAttempts tries (fun _ => PostResult.networkError) = tries := by
  constructor
  · exact retryAttemptCount_const_fail (PostResult.status code)
      (by simp [writeAttempt]; omega) tries 0
  · exact retryAttemptCount_const_fail PostResult.networkError rfl tries 0

theorem C3_permanent_failures_retried_witness :
    handlerWriteAttempts MAX_RETRYS (fun _ => PostResult.status 401) = MAX_RETRYS ∧
    handlerWriteAttempts MAX_RETRYS (fun _ => PostResult.networkError) = MAX_RETRYS :=
  C3_permanent_failures_retried MAX_RETRYS 401 (by decide) (by decide)
